import Mathlib

/-!
# Planning-Manager: the reservation workflow of `main.go`

A shallow embedding of the console room-reservation manager.  The relational
store is a pair of row lists (`rooms`, `reservations`); every function of
`main.go` that the verified properties talk about is a function over that
store.  The values that `fmt.Scanln` leaves in the variables are passed as
arguments, console output is returned as a list of printed lines, and
`log.Fatal` / `os.Exit` are a control outcome.

Conventions
* A calendar day is a triple `(year, month, day)`; a time of day is the number
  of seconds since midnight; a `time.Time` handed to the database is the pair of
  both.  The SQL comparisons `date = ?`, `start_time <= ?` and so on are the
  comparisons of those values.
* Query parameters reach the database in two ways, as in the source: as the
  text of `Format(...)` (`isRoomAvailable`), or as a raw `time.Time`
  (`isRoomAvailableForTimeSlot`, the `INSERT` of `createReservation`).  A raw
  `time.Time` goes through the driver's check `driverTime`, whose error makes
  the statement fail.
* The other data-access errors are `sql.ErrNoRows` only.
-/

set_option autoImplicit false

namespace PlanningManager

/-! ## Data model -/

/-- The Go struct `Room`: one row of the table `rooms(id, name, capacity)`. -/
structure Room where
  ID : Int
  Name : String
  Capacity : Int
  deriving DecidableEq, Repr

/-- A calendar day, the part of a `time.Time` that `Format("2006-01-02")` shows. -/
structure CalendarDate where
  year : Nat
  month : Nat
  day : Nat
  deriving DecidableEq, Repr

/-- A time of day in seconds since midnight, the part of a `time.Time` that
`Format("15:04:05")` shows. -/
abbrev Clock := Nat

/-- A `time.Time` value: its calendar day and its time of day.  `time.Parse` with
the layout `15:04` gives the day 0000-01-01, the layout having no date. -/
structure Time where
  date : CalendarDate
  clock : Clock
  deriving DecidableEq, Repr

/-- The Go struct `Reservation`: one row of the table
`reservations(id, room_id, date, start_time, end_time)`. -/
structure Reservation where
  ID : Int
  RoomID : Int
  Date : CalendarDate
  StartTime : Clock
  EndTime : Clock
  deriving DecidableEq, Repr

/-- The relational store behind the global handle `db`.  `nextID` is the
identifier the database assigns to the next inserted reservation. -/
structure DB where
  rooms : List Room
  reservations : List Reservation
  nextID : Int
  deriving DecidableEq, Repr

/-- The errors that the modelled functions return. -/
inductive Error where
  /-- An error returned by `time.Parse`. -/
  | parse : Error
  /-- The error `year is not in the range [1, 9999]: <year>`: the `fmt.Errorf` of
  `parseDate`, and the error of the database driver for a `time.Time` parameter. -/
  | yearOutOfRange (year : Nat) : Error
  /-- The `sql.ErrNoRows` of a `QueryRow(...).Scan` without a row. -/
  | noRows : Error
  deriving DecidableEq, Repr

/-- One printed line of console output. -/
inductive Line where
  /-- A `fmt.Println` / `fmt.Print` / `log.Fatal` of a fixed message. -/
  | text (msg : String) : Line
  /-- An error value printed by `fmt.Println(err)` or after a `log.Fatal` message. -/
  | failure (err : Error) : Line
  /-- The line `Salles disponibles pour le <date> à <time> :`. -/
  | header (date : CalendarDate) (timeSlot : Clock) : Line
  /-- The line `<index>. <name> (Capacité : <capacity>)`. -/
  | roomLine (index : Nat) (name : String) (capacity : Int) : Line
  deriving DecidableEq, Repr

/-- How a call ends: it returns to its caller, it terminates the process
(`os.Exit(code)`, `log.Fatal` being `os.Exit(1)`), or it goes on into
`displayNavigationOptions()`. -/
inductive Control where
  | returns : Control
  | exits (code : Int) : Control
  | navigation : Control
  deriving DecidableEq, Repr

/-! ## The standard-library parser `time.Parse` -/

/-- Modelled from the spec: `isDigit` of Go's package `time` (standard library,
not part of the repository): the character is one of `0` .. `9`. -/
def isDigit (c : Char) : Bool := 48 ≤ c.toNat && c.toNat ≤ 57

/-- Modelled from the spec: value of a decimal digit character, `int(c - '0')`. -/
def digitVal (c : Char) : Nat := c.toNat - 48

/-- Modelled from the spec: `getnum(s, fixed)` of Go's package `time`: reads a
number of one or two digits, of exactly two digits when `fixed`, and returns it
with the rest of the text. -/
def getnum (s : List Char) (fixed : Bool) : Option (Nat × List Char) :=
  match s with
  | [] => none
  | [a] => if isDigit a then (if fixed then none else some (digitVal a, [])) else none
  | a :: b :: rest =>
    if isDigit a then
      if isDigit b then some (digitVal a * 10 + digitVal b, rest)
      else if fixed then none else some (digitVal a, b :: rest)
    else none

/-- Modelled from the spec: the `2006` element of a `time.Parse` layout: exactly
four decimal digits. -/
def getYear (s : List Char) : Option (Nat × List Char) :=
  match s with
  | a :: b :: c :: d :: rest =>
    if isDigit a && isDigit b && isDigit c && isDigit d then
      some (digitVal a * 1000 + digitVal b * 100 + digitVal c * 10 + digitVal d, rest)
    else none
  | _ => none

/-- Gregorian leap years, as in Go's `time.isLeap`. -/
def isLeap (year : Nat) : Bool :=
  year % 4 == 0 && (year % 100 != 0 || year % 400 == 0)

/-- Number of days of a month, as in Go's `time.daysIn`. -/
def daysIn (month year : Nat) : Nat :=
  if month = 2 then (if isLeap year then 29 else 28)
  else if month = 4 ∨ month = 6 ∨ month = 9 ∨ month = 11 then 30
  else 31

/-- Modelled from the spec: `time.Parse("2006-01-02", value)` of Go's standard
library: a 4-digit year, `-`, a 2-digit month, `-`, a 2-digit day and nothing
else, accepted exactly when the month is in 1..12 and the day exists in that
month of that year. -/
def timeParseDate (value : String) : Except Error CalendarDate :=
  match getYear value.data with
  | some (year, '-' :: r1) =>
    match getnum r1 true with
    | some (month, '-' :: r2) =>
      match getnum r2 true with
      | some (day, []) =>
        if month < 1 ∨ 12 < month then .error .parse
        else if day < 1 ∨ daysIn month year < day then .error .parse
        else .ok ⟨year, month, day⟩
      | _ => .error .parse
    | _ => .error .parse
  | _ => .error .parse

/-- Modelled from the spec: `time.Parse("15:04", value)` of Go's standard
library: an hour of one or two digits below 24, `:`, a 2-digit minute below 60
and nothing else; the result is that time of day on the day 0000-01-01, the
elements absent from the layout being zero or, where zero is impossible, one. -/
def timeParseClock (value : String) : Except Error Time :=
  match getnum value.data false with
  | some (hour, ':' :: r1) =>
    match getnum r1 true with
    | some (minute, []) =>
      if 24 ≤ hour then .error .parse
      else if 60 ≤ minute then .error .parse
      else .ok ⟨⟨0, 1, 1⟩, hour * 3600 + minute * 60⟩
    | _ => .error .parse
  | _ => .error .parse

/-- The text `YYYY-MM-DD` of a calendar day whose year is below 10000
(`Format("2006-01-02")`). -/
def isoDate (d : CalendarDate) : String :=
  String.mk
    [Char.ofNat (48 + d.year / 1000 % 10), Char.ofNat (48 + d.year / 100 % 10),
     Char.ofNat (48 + d.year / 10 % 10), Char.ofNat (48 + d.year % 10), '-',
     Char.ofNat (48 + d.month / 10 % 10), Char.ofNat (48 + d.month % 10), '-',
     Char.ofNat (48 + d.day / 10 % 10), Char.ofNat (48 + d.day % 10)]

/-- A calendar day that exists: month in 1..12 and day in 1..`daysIn`. -/
def validDay (d : CalendarDate) : Prop :=
  1 ≤ d.month ∧ d.month ≤ 12 ∧ 1 ≤ d.day ∧ d.day ≤ daysIn d.month d.year

instance (d : CalendarDate) : Decidable (validDay d) := by
  unfold validDay; infer_instance

/-! ## Database gateway -/

/-- The `WHERE` clause shared by the two availability queries,
`room_id = ? AND date = ? AND ((start_time <= ? AND end_time > ?) OR
(start_time < ? AND end_time >= ?))`, with its six placeholders in order. -/
def whereClause (roomID : Int) (date : CalendarDate) (p1 p2 p3 p4 : Clock)
    (r : Reservation) : Bool :=
  decide (r.RoomID = roomID) && decide (r.Date = date) &&
    ((decide (r.StartTime ≤ p1) && decide (r.EndTime > p2)) ||
     (decide (r.StartTime < p3) && decide (r.EndTime ≥ p4)))

/-- The query `SELECT COUNT(*) FROM reservations WHERE ...`. -/
def selectCount (db : DB) (roomID : Int) (date : CalendarDate) (p1 p2 p3 p4 : Clock) : Nat :=
  (db.reservations.filter (whereClause roomID date p1 p2 p3 p4)).length

/-- `isRoomAvailable(roomID, date, startTime, endTime)`: the count query with the
placeholders `startTime, startTime, endTime, endTime`; available when the count
is zero. -/
def isRoomAvailable (db : DB) (roomID : Int) (date : CalendarDate)
    (startTime endTime : Clock) : Bool :=
  let count := selectCount db roomID date startTime startTime endTime endTime
  count == 0

/-- Modelled from the spec: the encoding of a `time.Time` query parameter by the
database driver (go-sql-driver/mysql, a dependency of the program, not part of
the repository), whose errors are the data-access errors of the spec: a value
with a year outside 1..9999 is refused with the error
`year is not in the range [1, 9999]: <year>` and the statement is not run; any
other value is sent as the text `YYYY-MM-DD HH:MM:SS`, of which a `DATE` column
takes the day and a `TIME` column or comparison the time of day. -/
def driverTime (t : Time) : Except Error Time :=
  if t.date.year < 1 ∨ t.date.year > 9999 then .error (.yearOutOfRange t.date.year)
  else .ok t

/-- `isRoomAvailableForTimeSlot(roomID, date, timeSlot)`: the same count query
with the raw `timeSlot` in all four time placeholders.  An error of the query
is `log.Fatal(err)`: the function then returns no value. -/
def isRoomAvailableForTimeSlot (db : DB) (roomID : Int) (date : CalendarDate)
    (timeSlot : Time) : Except Error Bool :=
  match driverTime timeSlot with
  | .error err => .error err
  | .ok sent =>
    let count := selectCount db roomID date sent.clock sent.clock sent.clock sent.clock
    .ok (count == 0)

/-- `getRoomIDByName(name)`: `SELECT id FROM rooms WHERE name = ?`, first row. -/
def getRoomIDByName (db : DB) (name : String) : Except Error Int :=
  match db.rooms.find? (fun room => decide (room.Name = name)) with
  | some room => .ok room.ID
  | none => .error .noRows

/-- `db.Exec("INSERT INTO reservations (room_id, date, start_time, end_time)
VALUES (?, ?, ?, ?)", roomID, date, startTime, endTime)` with three raw
`time.Time` parameters: when the driver accepts all three, one new row with the
identifier assigned by the database; otherwise the error, nothing being stored. -/
def insertReservation (db : DB) (roomID : Int) (date startTime endTime : Time) :
    Except Error DB :=
  match driverTime date with
  | .error err => .error err
  | .ok sentDate =>
    match driverTime startTime with
    | .error err => .error err
    | .ok sentStart =>
      match driverTime endTime with
      | .error err => .error err
      | .ok sentEnd =>
        .ok { db with
              reservations := db.reservations ++
                [⟨db.nextID, roomID, sentDate.date, sentStart.clock, sentEnd.clock⟩]
              nextID := db.nextID + 1 }

/-! ## Reservation workflow -/

/-- `parseDate(inputDate)`: `time.Parse`, then the year must lie in 1..9999. -/
def parseDate (inputDate : String) : Except Error CalendarDate :=
  match timeParseDate inputDate with
  | .error err => .error err
  | .ok date =>
    if date.year < 1 ∨ date.year > 9999 then .error (.yearOutOfRange date.year)
    else .ok date

/-- The result of a workflow call: how it ends, the store after it, and what it
printed. -/
structure Result where
  control : Control
  db : DB
  output : List Line
  deriving DecidableEq, Repr

/-- The prompts printed by `createReservation` before it parses anything. -/
def createPrompts : List Line :=
  [.text "Creating a reservation...", .text "Enter Room Name: ",
   .text "Enter Date (AAAA-MM-JJ): ", .text "Enter Start Time (HH:MM): ",
   .text "Enter End Time (HH:MM): "]

/-- `createReservation()`, up to its final call of `displayNavigationOptions()`;
the arguments are the values that the four `fmt.Scanln` calls leave in
`roomName`, `date`, `startTime` and `endTime`.  The availability check gets the
`Format` texts of the parsed values, the `INSERT` the parsed values themselves. -/
def createReservation (db : DB) (roomName date startTime endTime : String) : Result :=
  match parseDate date with
  | .error err => ⟨.returns, db, createPrompts ++ [.failure err]⟩
  | .ok parsedDate =>
    match timeParseClock startTime with
    | .error _ =>
      ⟨.exits 1, db,
        createPrompts ++ [.text "Invalid start time format. Please use HH:MM format."]⟩
    | .ok parsedStartTime =>
      match timeParseClock endTime with
      | .error _ =>
        ⟨.exits 1, db,
          createPrompts ++ [.text "Invalid end time format. Please use HH:MM format."]⟩
      | .ok parsedEndTime =>
        match getRoomIDByName db roomName with
        | .error err =>
          ⟨.exits 1, db, createPrompts ++ [.text "Failed to get room ID:", .failure err]⟩
        | .ok roomID =>
          if !isRoomAvailable db roomID parsedDate parsedStartTime.clock
              parsedEndTime.clock then
            ⟨.returns, db, createPrompts ++
              [.text "The selected room is not available for the specified date and time."]⟩
          else
            match insertReservation db roomID ⟨parsedDate, 0⟩ parsedStartTime
                parsedEndTime with
            | .error err =>
              ⟨.exits 1, db,
                createPrompts ++ [.text "Failed to create reservation:", .failure err]⟩
            | .ok stored =>
              ⟨.navigation, stored,
                createPrompts ++ [.text "Reservation created successfully!"]⟩

/-- The loop `for rows.Next()` of `listAvailableRoomsForTime` over the rows still
to read: every room that passes the point-in-time test is appended to
`availableRooms`; a `log.Fatal` inside the test ends the loop and the process. -/
def availableRoomsForTime (db : DB) (date : CalendarDate) (timeSlot : Time) :
    List Room → List Room → Except Error (List Room)
  | [], availableRooms => .ok availableRooms
  | room :: rows, availableRooms =>
    match isRoomAvailableForTimeSlot db room.ID date timeSlot with
    | .error err => .error err
    | .ok available =>
      availableRoomsForTime db date timeSlot rows
        (if available then availableRooms ++ [room] else availableRooms)

/-- The loop `for i, room := range availableRooms` that prints the numbered
lines, `i` starting at `start`. -/
def printRooms : Nat → List Room → List Line
  | _, [] => []
  | i, room :: rest => .roomLine (i + 1) room.Name room.Capacity :: printRooms (i + 1) rest

/-- `listAvailableRoomsForTime(date, timeSlot)`: how it ends and the printed
lines. -/
def listAvailableRoomsForTime (db : DB) (date : CalendarDate) (timeSlot : Time) :
    Control × List Line :=
  match availableRoomsForTime db date timeSlot db.rooms [] with
  | .error err => (.exits 1, [.header date timeSlot.clock, .failure err])
  | .ok availableRooms =>
    (.returns,
      [.header date timeSlot.clock] ++ printRooms 0 availableRooms ++
        (if availableRooms.length = 0 then
          [.text "Aucune salle disponible pour ce créneau horaire."] else []))

/-- `cancelReservation()`: an empty body. -/
def cancelReservation (db : DB) : Result := ⟨.returns, db, []⟩

/-- `viewReservations()`: an empty body. -/
def viewReservations (db : DB) : Result := ⟨.returns, db, []⟩

/-! ## Menu and navigation loop -/

/-- The lines of the main menu. -/
def mainMenuLines : List Line :=
  [.text "-----------------------------------------------------",
   .text "1. Lister les salles disponibles", .text "2. Créer une réservation",
   .text "3. Annuler une réservation", .text "4. Voir les réservations",
   .text "5. Quitter", .text "Choisissez une option : "]

/-- The lines of the navigation menu. -/
def navigationLines : List Line :=
  [.text "1. Retourner au menu principal", .text "2. Quitter",
   .text "Choisissez une option : "]

/-- One pass of `displayMainMenu()`, up to a call of `displayNavigationOptions()`:
`choice` is the scanned integer, `args` the values scanned after it. -/
def displayMainMenu (db : DB) (choice : Int) (args : List String) : Result :=
  match choice with
  | 1 =>
    let inputDate := args.getD 0 ""
    let inputTime := args.getD 1 ""
    let prompts := mainMenuLines ++
      [.text "Entrez la date (YYYY-MM-DD) : ", .text "Entrez l'heure (HH:MM) : "]
    match timeParseDate inputDate with
    | .error _ =>
      ⟨.exits 1, db, prompts ++
        [.text "Format de date invalide. Veuillez utiliser le format YYYY-MM-DD."]⟩
    | .ok date =>
      match timeParseClock inputTime with
      | .error _ =>
        ⟨.exits 1, db, prompts ++
          [.text "Format d'heure invalide. Veuillez utiliser le format HH:MM."]⟩
      | .ok timeSlot =>
        let r := listAvailableRoomsForTime db date timeSlot
        ⟨r.1, db, prompts ++ r.2⟩
  | 2 =>
    let r := createReservation db (args.getD 0 "") (args.getD 1 "") (args.getD 2 "")
      (args.getD 3 "")
    ⟨r.control, r.db, mainMenuLines ++ r.output⟩
  | 3 =>
    let r := cancelReservation db
    ⟨r.control, r.db, mainMenuLines ++ r.output⟩
  | 4 =>
    let r := viewReservations db
    ⟨r.control, r.db, mainMenuLines ++ r.output⟩
  | 5 => ⟨.exits 0, db, mainMenuLines ++ [.text "Merci d'utiliser notre service !"]⟩
  | _ => ⟨.returns, db, mainMenuLines ++ [.text "Option invalide. Veuillez réessayer."]⟩

/-- The states of the menu loop. -/
inductive MenuState where
  | MainMenu : MenuState
  | NavigationMenu : MenuState
  | Exited (code : Int) : MenuState
  deriving DecidableEq, Repr

/-- Where the program stands after a call that ended with `c` inside the loop
`for { displayMainMenu() }` of `main`. -/
def afterControl : Control → MenuState
  | .returns => .MainMenu
  | .exits code => .Exited code
  | .navigation => .NavigationMenu

/-- One pass of `displayNavigationOptions()`: choice 1 calls `displayMainMenu()`,
choice 2 exits, any other choice calls `displayNavigationOptions()` again. -/
def displayNavigationOptions (db : DB) (choice : Int) : MenuState × DB × List Line :=
  match choice with
  | 1 => (.MainMenu, db, navigationLines)
  | 2 => (.Exited 0, db, navigationLines ++ [.text "Merci d'utiliser notre service !"])
  | _ => (.NavigationMenu, db, navigationLines ++ [.text "Option invalide. Veuillez réessayer."])

/-- One step of the menu state machine: the menu of the current state is shown,
a choice (and the values the chosen operation scans) is consumed. -/
def step (s : MenuState) (db : DB) (choice : Int) (args : List String) :
    MenuState × DB × List Line :=
  match s with
  | .MainMenu =>
    let r := displayMainMenu db choice args
    (afterControl r.control, r.db, r.output)
  | .NavigationMenu => displayNavigationOptions db choice
  | .Exited code => (.Exited code, db, [])

/-! ## Predicates of the specification -/

/-- Two half-open windows `[s1, e1)` and `[s2, e2)` intersect:
`s1 <= s2 < e1` or `s2 <= s1 < e2`. -/
def intersects (s1 e1 s2 e2 : Clock) : Prop :=
  (s1 ≤ s2 ∧ s2 < e1) ∨ (s2 ≤ s1 ∧ s1 < e2)

instance (s1 e1 s2 e2 : Clock) : Decidable (intersects s1 e1 s2 e2) := by
  unfold intersects; infer_instance

/-- Every stored reservation has `start < end`. -/
def wellFormed (db : DB) : Prop :=
  ∀ r ∈ db.reservations, r.StartTime < r.EndTime

instance (db : DB) : Decidable (wellFormed db) := by
  unfold wellFormed; infer_instance

/-- No two stored reservations of the same room on the same date have
intersecting windows. -/
def noOverlap (db : DB) : Prop :=
  db.reservations.Pairwise (fun a b =>
    a.RoomID = b.RoomID ∧ a.Date = b.Date →
      ¬ intersects a.StartTime a.EndTime b.StartTime b.EndTime)

instance (db : DB) : Decidable (noOverlap db) := by
  unfold noOverlap; infer_instance

/-- The store of the scenarios: room Alpha (capacity 4) with one reservation on
2024-01-10 from 09:00 to 10:00, and a second room without reservations. -/
def alphaDB : DB :=
  { rooms := [⟨1, "Alpha", 4⟩, ⟨2, "Beta", 8⟩]
    reservations := [⟨1, 1, ⟨2024, 1, 10⟩, 32400, 36000⟩]
    nextID := 2 }

/-! ## Auxiliary lemmas -/

theorem whereClause_iff (roomID : Int) (date : CalendarDate) (p1 p2 p3 p4 : Clock)
    (r : Reservation) :
    whereClause roomID date p1 p2 p3 p4 r = true ↔
      r.RoomID = roomID ∧ r.Date = date ∧
        ((r.StartTime ≤ p1 ∧ p2 < r.EndTime) ∨ (r.StartTime < p3 ∧ p4 ≤ r.EndTime)) := by
  simp [whereClause, and_assoc]

theorem selectCount_eq_zero_iff (db : DB) (roomID : Int) (date : CalendarDate)
    (p1 p2 p3 p4 : Clock) :
    selectCount db roomID date p1 p2 p3 p4 = 0 ↔
      ∀ r ∈ db.reservations, ¬ whereClause roomID date p1 p2 p3 p4 r = true := by
  simp [selectCount, List.filter_eq_nil_iff]

theorem isRoomAvailable_eq_true_iff (db : DB) (roomID : Int) (date : CalendarDate)
    (S E : Clock) :
    isRoomAvailable db roomID date S E = true ↔
      ∀ r ∈ db.reservations, r.RoomID = roomID → r.Date = date →
        ¬ ((r.StartTime ≤ S ∧ S < r.EndTime) ∨ (r.StartTime < E ∧ E ≤ r.EndTime)) := by
  simp only [isRoomAvailable, beq_iff_eq, selectCount_eq_zero_iff, whereClause_iff]
  constructor
  · intro h r hr h1 h2 h3
    exact h r hr ⟨h1, h2, h3⟩
  · intro h r hr h3
    exact h r hr h3.1 h3.2.1 h3.2.2

theorem isRoomAvailable_eq_false_iff (db : DB) (roomID : Int) (date : CalendarDate)
    (S E : Clock) :
    isRoomAvailable db roomID date S E = false ↔
      ∃ r ∈ db.reservations, r.RoomID = roomID ∧ r.Date = date ∧
        ((r.StartTime ≤ S ∧ S < r.EndTime) ∨ (r.StartTime < E ∧ E ≤ r.EndTime)) := by
  rw [← Bool.not_eq_true, isRoomAvailable_eq_true_iff]
  push_neg
  constructor
  · rintro ⟨r, hr, h1, h2, h3⟩
    exact ⟨r, hr, h1, h2, h3⟩
  · rintro ⟨r, hr, h1, h2, h3⟩
    exact ⟨r, hr, h1, h2, h3⟩

theorem timeParseClock_date (value : String) (t : Time)
    (h : timeParseClock value = .ok t) : t.date = ⟨0, 1, 1⟩ := by
  unfold timeParseClock at h
  split at h
  · split at h
    · split at h
      · cases h
      · split at h
        · cases h
        · cases h
          rfl
    · cases h
  · cases h

/-- The driver refuses every value that `time.Parse` gives for the layout
`15:04`. -/
theorem driverTime_timeParseClock (value : String) (t : Time)
    (h : timeParseClock value = .ok t) :
    driverTime t = .error (.yearOutOfRange 0) := by
  unfold driverTime
  rw [timeParseClock_date value t h]
  rfl

theorem parseDate_year (inputDate : String) (d : CalendarDate)
    (h : parseDate inputDate = .ok d) : 1 ≤ d.year ∧ d.year ≤ 9999 := by
  unfold parseDate at h
  split at h
  · cases h
  · split at h
    · cases h
    · cases h
      omega

/-- A row belongs to the rows of room `R` on date `D` when it is stored with
that room and date. -/
theorem mem_filter_room_date (db : DB) (R : Int) (D : CalendarDate) (r : Reservation) :
    r ∈ db.reservations.filter (fun x => decide (x.RoomID = R) && decide (x.Date = D)) ↔
      r ∈ db.reservations ∧ r.RoomID = R ∧ r.Date = D := by
  simp [List.mem_filter]

/-! ## Availability of a window (C1, C3, C4) -/

/-- C1 (failing input): the stored reservation 09:00-10:00 of room 1 on
2024-01-10 intersects the new window 08:00-11:00 as a half-open interval, all
rows have start < end, and yet `isRoomAvailable` answers true: a reservation
lying strictly inside the new window is not counted by the query. -/
theorem C1_enclosed_reservation_reported_available :
    wellFormed alphaDB ∧ (28800 : Clock) < 39600 ∧
      (∃ r ∈ alphaDB.reservations, r.RoomID = 1 ∧ r.Date = ⟨2024, 1, 10⟩ ∧
        intersects r.StartTime r.EndTime 28800 39600) ∧
      isRoomAvailable alphaDB 1 ⟨2024, 1, 10⟩ 28800 39600 = true := by
  decide

/-- What the query does detect: a stored reservation of room `R` on date `D`
with start < end that intersects the new window `[S, E)` without lying strictly
inside it makes `isRoomAvailable` answer false. -/
theorem isRoomAvailable_false_of_not_enclosed (db : DB) (R : Int) (D : CalendarDate)
    (S E : Clock) (r : Reservation) (hr : r ∈ db.reservations) (hR : r.RoomID = R)
    (hD : r.Date = D) (hse : r.StartTime < r.EndTime)
    (hint : intersects r.StartTime r.EndTime S E)
    (hnot : ¬ (S < r.StartTime ∧ r.EndTime < E)) :
    isRoomAvailable db R D S E = false := by
  rw [isRoomAvailable_eq_false_iff]
  refine ⟨r, hr, hR, hD, ?_⟩
  unfold intersects at hint
  unfold Clock at *
  omega

/-- C3: for a new window `[S, E)` with `S < E`, if every stored reservation of
room `R` on date `D` is disjoint from it (`E <= s` or `e <= S`), then
`isRoomAvailable(R, D, S, E)` returns true, whatever is stored for other rooms
and other dates (the assumption start < end on the rows is not needed). -/
theorem C3_isRoomAvailable_of_disjoint (db : DB) (R : Int) (D : CalendarDate) (S E : Clock)
    (hSE : S < E)
    (hdis : ∀ r ∈ db.reservations, r.RoomID = R → r.Date = D →
      E ≤ r.StartTime ∨ r.EndTime ≤ S) :
    isRoomAvailable db R D S E = true := by
  rw [isRoomAvailable_eq_true_iff]
  intro r hr h1 h2
  have h := hdis r hr h1 h2
  unfold Clock at *
  omega

/-- C3 at the scenario: Alpha is reserved 09:00-10:00, the window 10:00-11:00 is
disjoint from it and is available. -/
theorem C3_isRoomAvailable_of_disjoint_witness :
    isRoomAvailable alphaDB 1 ⟨2024, 1, 10⟩ 36000 39600 = true :=
  C3_isRoomAvailable_of_disjoint alphaDB 1 ⟨2024, 1, 10⟩ 36000 39600 (by decide) (by decide)

/-- C4: when the only reservation of room `R` on date `D` is `[s, e)` with
`s < e`, a new window `[S, E)` with `S < E` is available if `S = e` and is not
available if `S = s`. -/
theorem C4_half_open_boundary (db : DB) (R : Int) (D : CalendarDate) (row : Reservation)
    (S E : Clock)
    (honly : db.reservations.filter (fun x => decide (x.RoomID = R) && decide (x.Date = D))
      = [row])
    (hse : row.StartTime < row.EndTime) (hSE : S < E) :
    (S = row.EndTime → isRoomAvailable db R D S E = true) ∧
      (S = row.StartTime → isRoomAvailable db R D S E = false) := by
  have hmem : ∀ r, r ∈ db.reservations ∧ r.RoomID = R ∧ r.Date = D ↔ r = row := by
    intro r
    rw [← mem_filter_room_date, honly, List.mem_singleton]
  constructor
  · intro hS
    rw [isRoomAvailable_eq_true_iff]
    intro r hr h1 h2
    have := (hmem r).1 ⟨hr, h1, h2⟩
    subst this
    unfold Clock at *
    omega
  · intro hS
    rw [isRoomAvailable_eq_false_iff]
    obtain ⟨hr, h1, h2⟩ := (hmem row).2 rfl
    exact ⟨row, hr, h1, h2, Or.inl ⟨le_of_eq hS.symm, hS ▸ hse⟩⟩

/-- C4 at the scenario: with Alpha reserved 09:00-10:00 on 2024-01-10, the
window 10:00-11:00 is available and the windows 09:00-09:30 and 09:30-10:30 are
not. -/
theorem C4_half_open_boundary_witness :
    isRoomAvailable alphaDB 1 ⟨2024, 1, 10⟩ 36000 39600 = true ∧
      isRoomAvailable alphaDB 1 ⟨2024, 1, 10⟩ 32400 34200 = false ∧
      isRoomAvailable alphaDB 1 ⟨2024, 1, 10⟩ 34200 37800 = false :=
  ⟨(C4_half_open_boundary alphaDB 1 ⟨2024, 1, 10⟩ ⟨1, 1, ⟨2024, 1, 10⟩, 32400, 36000⟩
      36000 39600 (by decide) (by decide) (by decide)).1 rfl,
   (C4_half_open_boundary alphaDB 1 ⟨2024, 1, 10⟩ ⟨1, 1, ⟨2024, 1, 10⟩, 32400, 36000⟩
      32400 34200 (by decide) (by decide) (by decide)).2 rfl,
   by decide⟩

/-! ## The point-in-time check (C5) -/

/-- The point-in-time check never returns a value for an instant read by
`time.Parse` with the layout `15:04`: the driver refuses the parameter and the
function ends in `log.Fatal`. -/
theorem isRoomAvailableForTimeSlot_parsed (db : DB) (roomID : Int) (date : CalendarDate)
    (value : String) (timeSlot : Time) (h : timeParseClock value = .ok timeSlot) :
    isRoomAvailableForTimeSlot db roomID date timeSlot = .error (.yearOutOfRange 0) := by
  unfold isRoomAvailableForTimeSlot
  rw [driverTime_timeParseClock value timeSlot h]

/-- For a `time.Time` that the driver accepts, the check answers by the count
query on the time of day. -/
theorem isRoomAvailableForTimeSlot_accepted (db : DB) (roomID : Int) (date : CalendarDate)
    (timeSlot : Time) (h1 : 1 ≤ timeSlot.date.year) (h2 : timeSlot.date.year ≤ 9999) :
    isRoomAvailableForTimeSlot db roomID date timeSlot =
      .ok (selectCount db roomID date timeSlot.clock timeSlot.clock timeSlot.clock
        timeSlot.clock == 0) := by
  have hn : ¬ (timeSlot.date.year < 1 ∨ timeSlot.date.year > 9999) := by omega
  simp only [isRoomAvailableForTimeSlot, driverTime, if_neg hn]

/-- C5 (failing input): Alpha is reserved 09:00-10:00 on 2024-01-10; for the
instant 09:30, strictly inside the reservation, and for the instant 10:00,
equal to its end, both as `time.Parse` reads them, `isRoomAvailableForTimeSlot`
returns neither false nor true: the raw year-0 parameter is refused and the
function ends in `log.Fatal`. -/
theorem C5_point_in_time_check_is_fatal :
    timeParseClock "09:30" = .ok ⟨⟨0, 1, 1⟩, 34200⟩ ∧
      timeParseClock "10:00" = .ok ⟨⟨0, 1, 1⟩, 36000⟩ ∧
      alphaDB.reservations.filter
          (fun x => decide (x.RoomID = 1) && decide (x.Date = ⟨2024, 1, 10⟩)) =
        [⟨1, 1, ⟨2024, 1, 10⟩, 32400, 36000⟩] ∧
      isRoomAvailableForTimeSlot alphaDB 1 ⟨2024, 1, 10⟩ ⟨⟨0, 1, 1⟩, 34200⟩ =
        .error (.yearOutOfRange 0) ∧
      isRoomAvailableForTimeSlot alphaDB 1 ⟨2024, 1, 10⟩ ⟨⟨0, 1, 1⟩, 36000⟩ =
        .error (.yearOutOfRange 0) :=
  ⟨rfl, rfl, by decide, rfl, rfl⟩

/-! ## Creating a reservation (C2, C7, C10) -/

/-- The `INSERT` of `createReservation` always fails: the start time comes from
`time.Parse` with the layout `15:04` and is refused by the driver. -/
theorem insertReservation_parsed (db : DB) (R : Int) (D : CalendarDate) (startTime : String)
    (S E : Time) (hD : 1 ≤ D.year ∧ D.year ≤ 9999)
    (hs : timeParseClock startTime = .ok S) :
    insertReservation db R ⟨D, 0⟩ S E = .error (.yearOutOfRange 0) := by
  have hn : ¬ (D.year < 1 ∨ D.year > 9999) := by omega
  have h1 : driverTime ⟨D, 0⟩ = .ok ⟨D, 0⟩ := by
    simp only [driverTime, if_neg hn]
  have h2 := driverTime_timeParseClock startTime S hs
  simp only [insertReservation, h1, h2]

theorem createReservation_of_parsed (db : DB) (roomName date startTime endTime : String)
    (R : Int) (D : CalendarDate) (S E : Time)
    (hd : parseDate date = .ok D) (hs : timeParseClock startTime = .ok S)
    (he : timeParseClock endTime = .ok E) (hr : getRoomIDByName db roomName = .ok R) :
    createReservation db roomName date startTime endTime =
      if isRoomAvailable db R D S.clock E.clock = true then
        ⟨.exits 1, db,
          createPrompts ++
            [.text "Failed to create reservation:", .failure (.yearOutOfRange 0)]⟩
      else
        ⟨.returns, db, createPrompts ++
          [.text "The selected room is not available for the specified date and time."]⟩ := by
  have hins := insertReservation_parsed db R D startTime S E (parseDate_year date D hd) hs
  simp only [createReservation, hd, hs, he, hr, hins]
  cases isRoomAvailable db R D S.clock E.clock <;> simp

/-- No call of `createReservation` changes the store, and none reaches the
navigation menu. -/
theorem createReservation_db (db : DB) (roomName date startTime endTime : String) :
    (createReservation db roomName date startTime endTime).db = db ∧
      (createReservation db roomName date startTime endTime).control ≠ .navigation := by
  cases hd : parseDate date with
  | error err => simp [createReservation, hd]
  | ok D =>
    cases hs : timeParseClock startTime with
    | error err => simp [createReservation, hd, hs]
    | ok S =>
      cases he : timeParseClock endTime with
      | error err => simp [createReservation, hd, hs, he]
      | ok E =>
        cases hr : getRoomIDByName db roomName with
        | error err => simp [createReservation, hd, hs, he, hr]
        | ok R =>
          rw [createReservation_of_parsed db roomName date startTime endTime R D S E hd hs he hr]
          cases isRoomAvailable db R D S.clock E.clock <;> simp

/-- C2: non-overlap is an invariant of `createReservation`: if no two stored
reservations of the same room on the same date have intersecting windows, the
same holds of the table after any call, whatever the request (the assumptions
start < end on the rows and on the request are not needed). -/
theorem C2_createReservation_keeps_noOverlap (db : DB)
    (roomName date startTime endTime : String) (hno : noOverlap db) :
    noOverlap (createReservation db roomName date startTime endTime).db := by
  rw [(createReservation_db db roomName date startTime endTime).1]
  exact hno

/-- C2 at the scenario: Alpha is reserved 09:00-10:00; after the request Alpha,
2024-01-10, 08:00-11:00, which the availability check lets through, the table
still has no two intersecting reservations. -/
theorem C2_createReservation_keeps_noOverlap_witness :
    noOverlap alphaDB ∧
      isRoomAvailable alphaDB 1 ⟨2024, 1, 10⟩ 28800 39600 = true ∧
      noOverlap (createReservation alphaDB "Alpha" "2024-01-10" "08:00" "11:00").db :=
  ⟨by decide, by decide,
   C2_createReservation_keeps_noOverlap alphaDB "Alpha" "2024-01-10" "08:00" "11:00"
     (by decide)⟩

/-- C7 (failing input): with Alpha reserved 09:00-10:00 on 2024-01-10, the
request Alpha, 2024-01-10, 10:00-11:00 parses, resolves to room 1 and is
available, and `createReservation` stores no row: the `INSERT` fails on the raw
year-0 start time and the call ends in `log.Fatal`, the table being the one
before the call. -/
theorem C7_available_request_is_fatal :
    parseDate "2024-01-10" = .ok ⟨2024, 1, 10⟩ ∧
      timeParseClock "10:00" = .ok ⟨⟨0, 1, 1⟩, 36000⟩ ∧
      timeParseClock "11:00" = .ok ⟨⟨0, 1, 1⟩, 39600⟩ ∧
      getRoomIDByName alphaDB "Alpha" = .ok 1 ∧
      isRoomAvailable alphaDB 1 ⟨2024, 1, 10⟩ 36000 39600 = true ∧
      createReservation alphaDB "Alpha" "2024-01-10" "10:00" "11:00" =
        ⟨.exits 1, alphaDB,
          createPrompts ++
            [.text "Failed to create reservation:", .failure (.yearOutOfRange 0)]⟩ :=
  ⟨rfl, rfl, rfl, rfl, by decide, by decide⟩

/-- The half of C7 that the code keeps: a request that parses, resolves to room
`R` and is not available leaves the store as it is and returns. -/
theorem createReservation_unavailable (db : DB) (roomName date startTime endTime : String)
    (R : Int) (D : CalendarDate) (S E : Time)
    (hd : parseDate date = .ok D) (hs : timeParseClock startTime = .ok S)
    (he : timeParseClock endTime = .ok E) (hr : getRoomIDByName db roomName = .ok R)
    (hav : isRoomAvailable db R D S.clock E.clock = false) :
    (createReservation db roomName date startTime endTime).db = db ∧
      (createReservation db roomName date startTime endTime).control = .returns := by
  rw [createReservation_of_parsed db roomName date startTime endTime R D S E hd hs he hr]
  simp [hav]

/-- C10: in a table that holds the row `(R, D, S, E)` with `S < E`, as the table
after an insert of that row does, `isRoomAvailable(R, D, S, E)` returns
false, and the request for that room, date and window is rejected: the call
returns and the table is unchanged. -/
theorem C10_stored_request_blocked (db : DB) (roomName date startTime endTime : String)
    (id R : Int) (D : CalendarDate) (S E : Time)
    (hd : parseDate date = .ok D) (hs : timeParseClock startTime = .ok S)
    (he : timeParseClock endTime = .ok E) (hr : getRoomIDByName db roomName = .ok R)
    (hSE : S.clock < E.clock)
    (hrow : (⟨id, R, D, S.clock, E.clock⟩ : Reservation) ∈ db.reservations) :
    isRoomAvailable db R D S.clock E.clock = false ∧
      (createReservation db roomName date startTime endTime).db = db ∧
      (createReservation db roomName date startTime endTime).control = .returns := by
  have hav : isRoomAvailable db R D S.clock E.clock = false := by
    rw [isRoomAvailable_eq_false_iff]
    exact ⟨_, hrow, rfl, rfl, Or.inl ⟨le_refl _, hSE⟩⟩
  exact ⟨hav,
    createReservation_unavailable db roomName date startTime endTime R D S E hd hs he hr hav⟩

/-- C10 at the scenario: the table holds Alpha's reservation 09:00-10:00 on
2024-01-10; that window is unavailable and the identical request returns
without changing the table. -/
theorem C10_stored_request_blocked_witness :
    isRoomAvailable alphaDB 1 ⟨2024, 1, 10⟩ 32400 36000 = false ∧
      (createReservation alphaDB "Alpha" "2024-01-10" "09:00" "10:00").db = alphaDB ∧
      (createReservation alphaDB "Alpha" "2024-01-10" "09:00" "10:00").control = .returns :=
  C10_stored_request_blocked alphaDB "Alpha" "2024-01-10" "09:00" "10:00" 1 1
    ⟨2024, 1, 10⟩ ⟨⟨0, 1, 1⟩, 32400⟩ ⟨⟨0, 1, 1⟩, 36000⟩ rfl rfl rfl rfl (by decide) (by decide)

/-! ## Parsing a date (C6) -/

theorem isDigit_ofNat (n : Nat) (h : n < 10) : isDigit (Char.ofNat (48 + n)) = true := by
  interval_cases n <;> rfl

theorem digitVal_ofNat (n : Nat) (h : n < 10) : digitVal (Char.ofNat (48 + n)) = n := by
  interval_cases n <;> rfl

/-- An accepted text starts with the four digits of the returned year and `-`. -/
theorem timeParseDate_ok_year (value : String) (d : CalendarDate)
    (h : timeParseDate value = .ok d) :
    ∃ rest, getYear value.data = some (d.year, '-' :: rest) := by
  unfold timeParseDate at h
  split at h
  · rename_i year r1 hy
    split at h
    · split at h
      · split at h
        · cases h
        · split at h
          · cases h
          · cases h
            exact ⟨r1, hy⟩
      · cases h
    · cases h
  · cases h

/-- The text of an existing day with a year below 10000 parses to that day. -/
theorem timeParseDate_isoDate (d : CalendarDate) (hv : validDay d) (hy : d.year ≤ 9999) :
    timeParseDate (isoDate d) = .ok d := by
  obtain ⟨y, m, day⟩ := d
  obtain ⟨hm1, hm2, hd1, hd2⟩ := hv
  simp only at hm1 hm2 hd1 hd2 hy
  have hd3 : day ≤ 31 := by
    refine le_trans hd2 ?_
    unfold daysIn
    split
    · split <;> omega
    · split <;> omega
  have e1 : y / 1000 % 10 * 1000 + y / 100 % 10 * 100 + y / 10 % 10 * 10 + y % 10 = y := by
    omega
  have e2 : m / 10 % 10 * 10 + m % 10 = m := by omega
  have e3 : day / 10 % 10 * 10 + day % 10 = day := by omega
  have hnm : ¬ (m < 1 ∨ 12 < m) := by omega
  have hnd : ¬ (day < 1 ∨ daysIn m y < day) := by omega
  simp only [timeParseDate, isoDate, getYear, getnum, isDigit_ofNat, digitVal_ofNat,
    Nat.mod_lt, Nat.zero_lt_succ, Bool.and_self, if_true, e1, e2, e3, hnm, hnd, if_false]

theorem getYear_0000 (rest : String) :
    getYear ("0000" ++ rest).data = some (0, rest.data) := by
  rw [String.data_append]
  rfl

theorem getYear_10000 (rest : String) :
    getYear ("10000" ++ rest).data = some (1000, '0' :: rest.data) := by
  rw [String.data_append]
  rfl

/-- C6: `parseDate` returns an error for every text that starts with the year
`0000` (the parser's error, or the range error for year 0) and for every text
that starts with `10000` (the parser's error, the fifth digit standing where
`-` is expected), and it returns the parsed day for the text `YYYY-MM-DD` of
every existing calendar day from 0001-01-01 to 9999-12-31. -/
theorem C6_parseDate (rest : String) (d : CalendarDate) :
    (parseDate ("0000" ++ rest) = .error .parse ∨
        parseDate ("0000" ++ rest) = .error (.yearOutOfRange 0)) ∧
      parseDate ("10000" ++ rest) = .error .parse ∧
      (validDay d → 1 ≤ d.year → d.year ≤ 9999 → parseDate (isoDate d) = .ok d) := by
  refine ⟨?_, ?_, ?_⟩
  · cases h : timeParseDate ("0000" ++ rest) with
    | error err =>
      left
      have herr : err = .parse := by
        unfold timeParseDate at h
        repeat' split at h
        all_goals first | (cases h; rfl) | cases h
      simp [parseDate, h, herr]
    | ok date =>
      right
      obtain ⟨r1, hy⟩ := timeParseDate_ok_year _ _ h
      rw [getYear_0000] at hy
      have h0 : date.year = 0 := by
        injection hy with hy
        injection hy with hy _
        exact hy.symm
      simp [parseDate, h, h0]
  · have h : timeParseDate ("10000" ++ rest) = .error .parse := by
      unfold timeParseDate
      rw [getYear_10000]
      rfl
    simp [parseDate, h]
  · intro hv h1 h2
    have h := timeParseDate_isoDate d hv h2
    have hn : ¬ (d.year < 1 ∨ d.year > 9999) := by omega
    unfold parseDate
    rw [h]
    exact if_neg hn

/-- C6 at concrete inputs: the existing day 0000-01-01 is rejected by the range
check, 10000-01-01 by the parser, and the leap day 2024-02-29 as well as the
two ends 0001-01-01 and 9999-12-31 are returned. -/
theorem C6_parseDate_witness :
    parseDate "0000-01-01" = .error (.yearOutOfRange 0) ∧
      parseDate "10000-01-01" = .error .parse ∧
      parseDate "2024-02-29" = .ok ⟨2024, 2, 29⟩ ∧
      parseDate "0001-01-01" = .ok ⟨1, 1, 1⟩ ∧
      parseDate "9999-12-31" = .ok ⟨9999, 12, 31⟩ :=
  ⟨rfl, (C6_parseDate "-01-01" ⟨2024, 2, 29⟩).2.1,
   (C6_parseDate "" ⟨2024, 2, 29⟩).2.2 (by decide) (by decide) (by decide),
   (C6_parseDate "" ⟨1, 1, 1⟩).2.2 (by decide) (by decide) (by decide),
   (C6_parseDate "" ⟨9999, 12, 31⟩).2.2 (by decide) (by decide) (by decide)⟩

/-! ## Listing the rooms available at an instant (C8) -/

/-- With at least one room in the rooms table and an instant read by
`time.Parse` with the layout `15:04`, the listing prints its header and ends in
`log.Fatal` at the first room. -/
theorem listAvailableRoomsForTime_parsed (db : DB) (date : CalendarDate) (value : String)
    (timeSlot : Time) (h : timeParseClock value = .ok timeSlot) (hrooms : db.rooms ≠ []) :
    listAvailableRoomsForTime db date timeSlot =
      (.exits 1, [.header date timeSlot.clock, .failure (.yearOutOfRange 0)]) := by
  unfold listAvailableRoomsForTime
  cases hr : db.rooms with
  | nil => exact absurd hr hrooms
  | cons room rows =>
    simp only [availableRoomsForTime,
      isRoomAvailableForTimeSlot_parsed db room.ID date value timeSlot h]

/-- C8 (failing input): with Alpha reserved 09:00-10:00 on 2024-01-10 and Beta
without a reservation, the listing for 2024-01-10 at the instant 09:30, as
`time.Parse` reads it, prints the header and no room, Beta included, and ends
in `log.Fatal`: the point-in-time test of the first room is refused. -/
theorem C8_listing_is_fatal :
    timeParseClock "09:30" = .ok ⟨⟨0, 1, 1⟩, 34200⟩ ∧
      (⟨2, "Beta", 8⟩ : Room) ∈ alphaDB.rooms ∧
      (∀ r ∈ alphaDB.reservations, r.RoomID = 2 → r.Date ≠ ⟨2024, 1, 10⟩) ∧
      listAvailableRoomsForTime alphaDB ⟨2024, 1, 10⟩ ⟨⟨0, 1, 1⟩, 34200⟩ =
        (.exits 1, [.header ⟨2024, 1, 10⟩ 34200, .failure (.yearOutOfRange 0)]) :=
  ⟨rfl, by decide, by decide, by decide⟩

/-! ## The menu state machine (C9) -/

/-- C9: choice 5 at the main menu steps to `Exited 0`; at the navigation menu
choice 1 steps to the main menu, choice 2 steps to `Exited 0` and every other
choice steps back to the navigation menu; at the main menu every choice outside
1..5 steps back to the main menu; none of these steps changes the store. -/
theorem C9_menu_state_machine (db : DB) (choice : Int) (args : List String) :
    (step .MainMenu db 5 args).1 = .Exited 0 ∧
      (step .NavigationMenu db 1 args).1 = .MainMenu ∧
      (step .NavigationMenu db 2 args).1 = .Exited 0 ∧
      (choice ≠ 1 → choice ≠ 2 →
        (step .NavigationMenu db choice args).1 = .NavigationMenu ∧
        (step .NavigationMenu db choice args).2.1 = db) ∧
      (choice < 1 ∨ 5 < choice →
        (step .MainMenu db choice args).1 = .MainMenu ∧
        (step .MainMenu db choice args).2.1 = db) := by
  refine ⟨rfl, rfl, rfl, ?_, ?_⟩
  · intro h1 h2
    show (displayNavigationOptions db choice).1 = .NavigationMenu ∧
      (displayNavigationOptions db choice).2.1 = db
    unfold displayNavigationOptions
    split
    · exact absurd rfl h1
    · exact absurd rfl h2
    · exact ⟨rfl, rfl⟩
  · intro h
    show afterControl (displayMainMenu db choice args).control = .MainMenu ∧
      (displayMainMenu db choice args).db = db
    unfold displayMainMenu
    split
    all_goals first | omega | exact ⟨rfl, rfl⟩

/-- C9 at concrete choices: 7 and the unparsable input (scanned as 0) redisplay
the navigation menu, and 0, 6 and -1 redisplay the main menu, the store being
the same. -/
theorem C9_menu_state_machine_witness :
    (step .NavigationMenu alphaDB 7 []).1 = .NavigationMenu ∧
      (step .NavigationMenu alphaDB 0 []).1 = .NavigationMenu ∧
      (step .MainMenu alphaDB 6 []).1 = .MainMenu ∧
      (step .MainMenu alphaDB 0 []).2.1 = alphaDB ∧
      (step .MainMenu alphaDB (-1) []).1 = .MainMenu :=
  ⟨((C9_menu_state_machine alphaDB 7 []).2.2.2.1 (by decide) (by decide)).1,
   ((C9_menu_state_machine alphaDB 0 []).2.2.2.1 (by decide) (by decide)).1,
   ((C9_menu_state_machine alphaDB 6 []).2.2.2.2 (by decide)).1,
   ((C9_menu_state_machine alphaDB 0 []).2.2.2.2 (by decide)).2,
   ((C9_menu_state_machine alphaDB (-1) []).2.2.2.2 (by decide)).1⟩

end PlanningManager
